import Mathlib

/-!
Verification development for the OctoCal repository (Python).

The Python sources are shallowly embedded below:
  - session_parser.py : SessionParser.parse and its helpers
  - notifier.py       : Notifier.should_notify_upcoming
  - main.py           : SessionTracker and OctopusEnergyMonitor.update_ical
  - ical_generator.py : ICalGenerator.generate
  - octopus_scraper.py: OctopusScraper.extract_sessions

Python datetimes are embedded as records of naturals with lexicographic
comparison; Python exceptions as an Except layer; Python sets of strings
as duplicate-free lists.  The current time (datetime.now()) is passed as
an explicit parameter.
-/

/-! ## Embedded datetime (datetime.datetime, naive, minute precision) -/

structure PyDateTime where
  year : Nat
  month : Nat
  day : Nat
  hour : Nat
  minute : Nat
deriving DecidableEq, Repr

/-- Python datetime comparison (lexicographic on the fields we model). -/
def PyDateTime.ltB (a b : PyDateTime) : Bool :=
  if a.year ≠ b.year then a.year < b.year
  else if a.month ≠ b.month then a.month < b.month
  else if a.day ≠ b.day then a.day < b.day
  else if a.hour ≠ b.hour then a.hour < b.hour
  else a.minute < b.minute

def isLeapYear (y : Nat) : Bool :=
  y % 4 = 0 && (y % 100 ≠ 0 || y % 400 = 0)

def daysInMonth (y m : Nat) : Nat :=
  if m = 2 then (if isLeapYear y then 29 else 28)
  else if m = 4 || m = 6 || m = 9 || m = 11 then 30
  else 31

/-- Days before the first day of month m (1-based) in year y. -/
def daysBeforeMonth (y m : Nat) : Nat :=
  (List.range m).foldl (fun acc i => if 1 ≤ i then acc + daysInMonth y i else acc) 0

/-- Proleptic Gregorian day number, as used by datetime.toordinal. -/
def PyDateTime.toDays (d : PyDateTime) : Nat :=
  (d.year - 1) * 365 + (d.year - 1) / 4 - (d.year - 1) / 100 + (d.year - 1) / 400
    + daysBeforeMonth d.year d.month + (d.day - 1)

/-- Minutes on an absolute timeline; datetime subtraction in the Python
source is total_seconds of a timedelta, which for our whole-minute values
is 60 times the difference of these. -/
def PyDateTime.toMin (d : PyDateTime) : Int :=
  (d.toDays : Int) * 1440 + (d.hour : Int) * 60 + (d.minute : Int)

/-- datetime.replace(hour=h, minute=0), validity of h checked by callers. -/
def setHour (d : PyDateTime) (h : Nat) : PyDateTime :=
  { d with hour := h, minute := 0 }

/-! ## Python string helpers -/

/-- Python str whitespace (the ASCII part, all that the inputs use). -/
def pyIsSpace (c : Char) : Bool :=
  c = ' ' || c = '\t' || c = '\n' || c = '\r' || c = '\x0b' || c = '\x0c'

def pyStripList (cs : List Char) : List Char :=
  ((cs.dropWhile pyIsSpace).reverse.dropWhile pyIsSpace).reverse

/-- str.strip() -/
def pyStrip (s : String) : String :=
  String.mk (pyStripList s.toList)

/-- str.split(sep) for a one-character separator: always returns
(number of separators + 1) parts, empties included. -/
def pySplitCharAux (sep : Char) : List Char → List Char → List String
  | [], cur => [String.mk cur.reverse]
  | c :: t, cur =>
      if c = sep then String.mk cur.reverse :: pySplitCharAux sep t []
      else pySplitCharAux sep t (c :: cur)

def pySplitChar (sep : Char) (s : String) : List String :=
  pySplitCharAux sep s.toList []

def natOfDigitsAux : List Char → Nat → Nat
  | [], acc => acc
  | c :: t, acc => natOfDigitsAux t (acc * 10 + (c.toNat - '0'.toNat))

/-- int() on a run of ASCII digits. -/
def natOfDigits (cs : List Char) : Nat := natOfDigitsAux cs 0

/-- Whitespace-separated fields of a string (used to model strptime,
whose format-string blanks match runs of whitespace). -/
def wsFieldsAux : List Char → List Char → List (List Char)
  | [], cur => if cur.isEmpty then [] else [cur.reverse]
  | c :: t, cur =>
      if pyIsSpace c then
        if cur.isEmpty then wsFieldsAux t [] else cur.reverse :: wsFieldsAux t []
      else wsFieldsAux t (c :: cur)

def wsFields (s : String) : List (List Char) := wsFieldsAux s.toList []

def toLowerList (cs : List Char) : List Char := cs.map Char.toLower

/-! ## session_parser.py : SessionParser -/

inductive PyErr where
  | indexError
  | valueError
deriving DecidableEq, Repr

/-- Session dataclass of session_parser.py. -/
structure Session where
  sessionStr : String
  startTime : PyDateTime
  endTime : PyDateTime
deriving DecidableEq, Repr

inductive AmPm where
  | am
  | pm
deriving DecidableEq, Repr

/-- Lines 95-99: the match of (digits)(am|pm)? at the start of the
lowered time token; returns the digit value and the optional suffix. -/
def lexTimeToken (s : String) : Option (Nat × Option AmPm) :=
  let cs := toLowerList s.toList
  match cs with
  | [] => none
  | c :: _ =>
      if c.isDigit then
        let ds := cs.takeWhile Char.isDigit
        let rest := cs.dropWhile Char.isDigit
        let suf : Option AmPm :=
          match rest with
          | 'a' :: 'm' :: _ => some AmPm.am
          | 'p' :: 'm' :: _ => some AmPm.pm
          | _ => none
        some (natOfDigits ds, suf)
      else none

/-- Lines 100-106: infer a missing suffix and convert to 24-hour form. -/
def to24Hour (hour : Nat) (suffix : Option AmPm) : Nat :=
  let ampm := suffix.getD (if hour = 12 then AmPm.pm else AmPm.am)
  if ampm = AmPm.pm ∧ hour ≠ 12 then hour + 12
  else if ampm = AmPm.am ∧ hour = 12 then 0
  else hour

/-- The time half of _parse_datetime (lines 95-108). -/
def parseTimeToken (s : String) : Option Nat :=
  (lexTimeToken s).map (fun p => to24Hour p.1 p.2)

/-- Line 112: re.sub((digits)(st|nd|rd|th) -> digits, case-insensitive). -/
def isOrdinalSuffix (a b : Char) : Bool :=
  (a.toLower = 's' && b.toLower = 't') || (a.toLower = 'n' && b.toLower = 'd') ||
  (a.toLower = 'r' && b.toLower = 'd') || (a.toLower = 't' && b.toLower = 'h')

def stripOrdinalsAux : Nat → List Char → List Char
  | 0, s => s
  | _ + 1, [] => []
  | fuel + 1, c :: t =>
      if c.isDigit then
        let ds := (c :: t).takeWhile Char.isDigit
        let rest := (c :: t).dropWhile Char.isDigit
        match rest with
        | a :: b :: r =>
            if isOrdinalSuffix a b then ds ++ stripOrdinalsAux fuel r
            else ds ++ stripOrdinalsAux fuel rest
        | _ => ds ++ stripOrdinalsAux fuel rest
      else c :: stripOrdinalsAux fuel t

def stripOrdinals (s : String) : String :=
  String.mk (stripOrdinalsAux (s.toList.length + 1) s.toList)

def weekdayNames : List (List Char) :=
  ["monday".toList, "tuesday".toList, "wednesday".toList, "thursday".toList,
   "friday".toList, "saturday".toList, "sunday".toList]

def monthNames : List (List Char) :=
  ["january".toList, "february".toList, "march".toList, "april".toList,
   "may".toList, "june".toList, "july".toList, "august".toList,
   "september".toList, "october".toList, "november".toList, "december".toList]

def monthNum (cs : List Char) : Option Nat :=
  let rec go : List (List Char) → Nat → Option Nat
    | [], _ => none
    | n :: t, i => if toLowerList cs = n then some i else go t (i + 1)
  go monthNames 1

/-- The day field of strptime format %d: one or two digits, value 1-31. -/
def parseDayField (cs : List Char) : Option Nat :=
  if cs ≠ [] ∧ cs.length ≤ 2 ∧ cs.all Char.isDigit then
    let v := natOfDigits cs
    if 1 ≤ v ∧ v ≤ 31 then some v else none
  else none

/-- The weekday/day/month fields of the cleaned date phrase, without the
calendar-validity check (strptime parses but never cross-validates the
weekday name, so only its presence in the table matters). -/
def fieldsDM (clean : String) : Option (Nat × Nat) :=
  match wsFields clean with
  | [w, d, m] =>
      if weekdayNames.contains (toLowerList w) then
        match parseDayField d, monthNum m with
        | some dv, some mv => some (dv, mv)
        | _, _ => none
      else none
  | _ => none

/-- datetime.strptime(clean ++ " " ++ str(y), "%A %d %B %Y"), returning
none where Python raises ValueError (bad shape or invalid date).  The
f-string append of the year plus the exactly-four-digit %Y field is
modelled by the 1000-9999 guard and passing y directly. -/
def strptimeY (clean : String) (y : Nat) : Option PyDateTime :=
  if 1000 ≤ y ∧ y ≤ 9999 then
    match fieldsDM clean with
    | some (d, m) => if d ≤ daysInMonth y m then some ⟨y, m, d, 0, 0⟩ else none
    | none => none
  else none

/-- Lines 129-141: combine the parsed date with the hour (replace raises
ValueError for hour > 23), and roll the year forward when the result is
in the past; a ValueError inside the roll-forward retry is swallowed. -/
def combineAndRoll (now : PyDateTime) (clean : String) (h : Nat) (d : PyDateTime) :
    Except PyErr (Option PyDateTime) :=
  if h ≤ 23 then
    if (setHour d h).ltB now then
      match strptimeY clean (now.year + 1) with
      | some d2 => Except.ok (some (setHour d2 h))
      | none => Except.ok (some (setHour d h))
    else Except.ok (some (setHour d h))
  else Except.error PyErr.valueError

/-- Lines 110-141: the date half of _parse_datetime, given the converted
24-hour value h of the time token. -/
def resolveDate (now : PyDateTime) (datePart : String) (h : Nat) :
    Except PyErr (Option PyDateTime) :=
  match strptimeY (stripOrdinals datePart) now.year with
  | some d => combineAndRoll now (stripOrdinals datePart) h d
  | none =>
      match strptimeY (stripOrdinals datePart) (now.year + 1) with
      | some d => combineAndRoll now (stripOrdinals datePart) h d
      | none => Except.ok none

/-- SessionParser._parse_datetime (lines 83-141). -/
def parseDatetime (now : PyDateTime) (timeStr datePart : String) :
    Except PyErr (Option PyDateTime) :=
  match parseTimeToken timeStr with
  | none => Except.ok none
  | some h => resolveDate now datePart h

/-- SessionParser._parse_start_time: time_part.split(dash)[0] always
exists, so no IndexError is possible here. -/
def parseStartTime (now : PyDateTime) (timePart datePart : String) :
    Except PyErr (Option PyDateTime) :=
  parseDatetime now (pyStrip ((pySplitChar '-' timePart).headD "")) datePart

/-- SessionParser._parse_end_time: time_part.split(dash)[1] raises
IndexError when the time range contains no dash. -/
def parseEndTime (now : PyDateTime) (timePart datePart : String) :
    Except PyErr (Option PyDateTime) :=
  match (pySplitChar '-' timePart).drop 1 with
  | [] => Except.error PyErr.indexError
  | t :: _ => parseDatetime now (pyStrip t) datePart

/-- SessionParser.parse (lines 39-69).  The Except layer carries the
Python exceptions that can escape the function: the start time is
evaluated first (line 58), then the end time (line 59), then the two
None checks (line 61). -/
def parseParts (now : PyDateTime) (sessionStr timePart datePart : String) :
    Except PyErr (Option Session) :=
  match parseStartTime now timePart datePart with
  | Except.error e => Except.error e
  | Except.ok st =>
      match parseEndTime now timePart datePart with
      | Except.error e => Except.error e
      | Except.ok en =>
          match st, en with
          | some s, some e => Except.ok (some ⟨sessionStr, s, e⟩)
          | _, _ => Except.ok none

def parse (now : PyDateTime) (sessionStr : String) : Except PyErr (Option Session) :=
  if (pySplitChar ',' sessionStr).length ≠ 2 then Except.ok none
  else
    parseParts now sessionStr
      (pyStrip ((pySplitChar ',' sessionStr).headD ""))
      (pyStrip ((pySplitChar ',' sessionStr).getD 1 ""))

/-! ## notifier.py : Notifier.should_notify_upcoming (lines 170-188) -/

/-- should_notify_upcoming: target is start minus upcoming_hours hours;
fires while the absolute difference to now is under 300 seconds.  The
datetime arithmetic is carried out on the absolute minute timeline. -/
def shouldNotifyUpcoming (enabled : Bool) (upcomingHours : Nat)
    (now startTime : PyDateTime) : Bool :=
  if !enabled then false
  else
    let notificationTime : Int := startTime.toMin - 60 * (upcomingHours : Int)
    let timeDiff : Int := 60 * ((now.toMin - notificationTime).natAbs : Int)
    timeDiff < 300

/-! ## main.py : SessionTracker (lines 75-155) -/

/-- The four Python sets of SessionTracker, as duplicate-free lists. -/
structure TrackerState where
  seenSessions : List String
  notifiedUpcoming : List String
  notifiedStart : List String
  notifiedEnd : List String
deriving DecidableEq, Repr

def emptyTracker : TrackerState := ⟨[], [], [], []⟩

/-- set.add -/
def pySetAdd (l : List String) (x : String) : List String :=
  if x ∈ l then l else l ++ [x]

/-- _save_state: the JSON document holds exactly the four lists, so the
stored shape is the state itself. -/
def saveState (st : TrackerState) : Option TrackerState := some st

/-- _load_state at construction: a missing store leaves the empty state. -/
def loadState (file : Option TrackerState) : TrackerState :=
  match file with
  | none => emptyTracker
  | some d => d

def isNewSession (st : TrackerState) (d : String) : Bool :=
  decide (d ∉ st.seenSessions)

def shouldNotifyUpcomingQ (st : TrackerState) (d : String) : Bool :=
  decide (d ∉ st.notifiedUpcoming)

def shouldNotifyStartQ (st : TrackerState) (d : String) : Bool :=
  decide (d ∉ st.notifiedStart)

def shouldNotifyEndQ (st : TrackerState) (d : String) : Bool :=
  decide (d ∉ st.notifiedEnd)

/-- The eight public tracker methods as one operation type. -/
inductive TrackOp where
  | isNew (d : String)
  | shouldUp (d : String)
  | shouldStart (d : String)
  | shouldEnd (d : String)
  | markSeen (d : String)
  | markUp (d : String)
  | markStart (d : String)
  | markEnd (d : String)
deriving DecidableEq, Repr

/-- One method call acting on (in-memory state, persisted file); queries
have bodies that only read, marks add to their set and run _save_state. -/
def applyOp (sf : TrackerState × Option TrackerState) (op : TrackOp) :
    (TrackerState × Option TrackerState) × Option Bool :=
  match op with
  | TrackOp.isNew d => (sf, some (isNewSession sf.1 d))
  | TrackOp.shouldUp d => (sf, some (shouldNotifyUpcomingQ sf.1 d))
  | TrackOp.shouldStart d => (sf, some (shouldNotifyStartQ sf.1 d))
  | TrackOp.shouldEnd d => (sf, some (shouldNotifyEndQ sf.1 d))
  | TrackOp.markSeen d =>
      let st := { sf.1 with seenSessions := pySetAdd sf.1.seenSessions d }
      ((st, saveState st), none)
  | TrackOp.markUp d =>
      let st := { sf.1 with notifiedUpcoming := pySetAdd sf.1.notifiedUpcoming d }
      ((st, saveState st), none)
  | TrackOp.markStart d =>
      let st := { sf.1 with notifiedStart := pySetAdd sf.1.notifiedStart d }
      ((st, saveState st), none)
  | TrackOp.markEnd d =>
      let st := { sf.1 with notifiedEnd := pySetAdd sf.1.notifiedEnd d }
      ((st, saveState st), none)

def runOps (sf : TrackerState × Option TrackerState) (ops : List TrackOp) :
    TrackerState × Option TrackerState :=
  ops.foldl (fun sf op => (applyOp sf op).1) sf

/-! ## ical_generator.py : ICalGenerator.generate (lines 30-128) -/

structure VAlarm where
  action : String
  description : String
  triggerMinutes : Int
deriving DecidableEq, Repr

structure VEvent where
  summary : String
  dtstart : PyDateTime
  dtend : PyDateTime
  dtstamp : PyDateTime
  uid : String
  description : String
  location : String
  status : String
  transp : String
  categories : String
  alarms : List VAlarm
deriving DecidableEq, Repr

structure CalDoc where
  prodid : String
  version : String
  calscale : String
  method : String
  calname : String
  caltimezone : String
  caldesc : String
  events : List VEvent
deriving DecidableEq, Repr

def padNum (width n : Nat) : String :=
  let s := toString n
  String.mk (List.replicate (width - s.length) '0') ++ s

/-- start_time.strftime of YmdHM used for the event uid. -/
def strftimeYmdHM (d : PyDateTime) : String :=
  padNum 4 d.year ++ padNum 2 d.month ++ padNum 2 d.day ++
  padNum 2 d.hour ++ padNum 2 d.minute

def mkAlarm (minutes : Nat) : VAlarm :=
  let desc :=
    if minutes = 0 then "Free electricity session starting NOW!"
    else if minutes < 60 then
      "Free electricity session in " ++ toString minutes ++ " minutes!"
    else
      let hours := minutes / 60
      "Free electricity session in " ++ toString hours ++
        (if hours > 1 then " hours!" else " hour!")
  ⟨"DISPLAY", desc, if minutes = 0 then 0 else -(minutes : Int)⟩

def mkEvent (now : PyDateTime) (s : Session) (alarmsEnabled : Bool)
    (alarmTimes : List Nat) : VEvent :=
  { summary := "Octopus Free Electricity"
    dtstart := s.startTime
    dtend := s.endTime
    dtstamp := now
    uid := strftimeYmdHM s.startTime ++ "@octopus.energy"
    description := "Free electricity session: " ++ s.sessionStr
    location := "UK"
    status := "CONFIRMED"
    transp := "TRANSPARENT"
    categories := "Free Electricity,Octopus Energy"
    alarms := if alarmsEnabled ∧ alarmTimes ≠ [] then alarmTimes.map mkAlarm else [] }

def buildCal (now : PyDateTime) (tz : String) (alarmsEnabled : Bool)
    (alarmTimes : List Nat) (sessions : List Session) : CalDoc :=
  { prodid := "-//Octopus Energy Free Electricity//EN"
    version := "2.0"
    calscale := "GREGORIAN"
    method := "PUBLISH"
    calname := "Octopus Free Electricity"
    caltimezone := tz
    caldesc := "Free electricity sessions from Octopus Energy"
    events := sessions.map (fun s => mkEvent now s alarmsEnabled alarmTimes) }

/-- ICalGenerator.generate: lines 41-43 return False at once for an empty
session list, before any calendar is built or written; otherwise the file
contents are replaced in full.  The pair is (returned bool, file after). -/
def generate (now : PyDateTime) (tz : String) (alarmsEnabled : Bool)
    (alarmTimes : List Nat) (sessions : List Session) (file : Option CalDoc) :
    Bool × Option CalDoc :=
  if sessions.isEmpty then (false, file)
  else (true, some (buildCal now tz alarmsEnabled alarmTimes sessions))

/-- OctopusEnergyMonitor.update_ical (main.py lines 267-317): filter by
the cleanup cutoff (end_time > now - days_to_keep days, compared on the
minute timeline) and hand the result to generate; the empty-filtered
branch calls generate with the empty list. -/
def updateIcal (cleanupEnabled : Bool) (daysToKeep : Nat) (now : PyDateTime)
    (tz : String) (alarmsEnabled : Bool) (alarmTimes : List Nat)
    (sessions : List Session) (file : Option CalDoc) : Option CalDoc :=
  let filtered :=
    if cleanupEnabled then
      sessions.filter (fun s => now.toMin - (daysToKeep : Int) * 1440 < s.endTime.toMin)
    else sessions
  if filtered.isEmpty then (generate now tz alarmsEnabled alarmTimes [] file).2
  else (generate now tz alarmsEnabled alarmTimes filtered file).2

/-! ## octopus_scraper.py : OctopusScraper.extract_sessions

The re module calls in extract_sessions use a small pattern class: runs
of single-character classes, literal characters, optional literal
alternations, and one starred group.  A backtracking matcher for exactly
that class is embedded here; fuel bounds the recursion depth (each call
consumes one unit) and is chosen far beyond any depth the patterns can
reach on an input.
-/

def isWordChar (c : Char) : Bool := c.isAlpha || c.isDigit || c = '_'

inductive RItem where
  | one (f : Char → Bool)
  | cls (f : Char → Bool) (atLeastOne : Bool)
  | lit (c : Char)
  | alts (as : List (List Char))
  | gstar (sub : List RItem)
  | mark

/-- Case-insensitive character comparison (the searches, substitutions
and findall calls in extract_sessions all pass re.IGNORECASE). -/
def lowEq (a b : Char) : Bool := a.toLower = b.toLower

def isPrefixLow : List Char → List Char → Bool
  | [], _ => true
  | _ :: _, [] => false
  | a :: as, b :: bs => lowEq a b && isPrefixLow as bs

def countWhile (f : Char → Bool) : List Char → Nat
  | [] => 0
  | c :: t => if f c then countWhile f t + 1 else 0

mutual

/-- Backtracking matcher: returns the consumed length of the first match
in greedy priority order, with the input offset at the mark item. -/
def matchSeq : Nat → List RItem → List Char → Option (Nat × Option Nat)
  | 0, _, _ => none
  | _ + 1, [], _ => some (0, none)
  | fuel + 1, RItem.one f :: rest, s =>
      match s with
      | [] => none
      | c :: s' =>
          if f c then (matchSeq fuel rest s').map (fun r => (r.1 + 1, r.2.map (· + 1)))
          else none
  | fuel + 1, RItem.cls f atLeastOne :: rest, s =>
      matchClsFrom fuel rest s (countWhile f s) (if atLeastOne then 1 else 0)
  | fuel + 1, RItem.lit c :: rest, s =>
      match s with
      | [] => none
      | a :: s' =>
          if lowEq a c then (matchSeq fuel rest s').map (fun r => (r.1 + 1, r.2.map (· + 1)))
          else none
  | fuel + 1, RItem.alts as :: rest, s => matchAlts fuel as rest s
  | fuel + 1, RItem.gstar sub :: rest, s =>
      match matchSeq fuel (sub ++ RItem.gstar sub :: rest) s with
      | some r => some r
      | none => matchSeq fuel rest s
  | fuel + 1, RItem.mark :: rest, s =>
      (matchSeq fuel rest s).map (fun r => (r.1, some 0))

/-- Try consuming k characters for the current class, k descending. -/
def matchClsFrom : Nat → List RItem → List Char → Nat → Nat → Option (Nat × Option Nat)
  | 0, _, _, _, _ => none
  | fuel + 1, rest, s, k, lo =>
      if k < lo then none
      else
        match (matchSeq fuel rest (s.drop k)).map (fun r => (r.1 + k, r.2.map (· + k))) with
        | some r => some r
        | none => if k = 0 then none else matchClsFrom fuel rest s (k - 1) lo

/-- Try the literal alternatives in order. -/
def matchAlts : Nat → List (List Char) → List RItem → List Char → Option (Nat × Option Nat)
  | 0, _, _, _ => none
  | _ + 1, [], _, _ => none
  | fuel + 1, a :: as, rest, s =>
      if isPrefixLow a s then
        match (matchSeq fuel rest (s.drop a.length)).map
            (fun r => (r.1 + a.length, r.2.map (· + a.length))) with
        | some r => some r
        | none => matchAlts fuel as rest s
      else matchAlts fuel as rest s

end

def fuelFor (s : List Char) : Nat := (s.length + 64) * 4

/-- re match anchored at the start of s. -/
def reMatchAt (items : List RItem) (s : List Char) : Option (Nat × Option Nat) :=
  matchSeq (fuelFor s) items s

/-- re.search: leftmost match; returns (start, length, absolute mark). -/
def reSearchFrom (items : List RItem) : List Char → Nat → Option (Nat × Nat × Option Nat)
  | s, p =>
      match reMatchAt items s with
      | some (n, m) => some (p, n, m.map (p + ·))
      | none =>
          match s with
          | [] => none
          | _ :: t => reSearchFrom items t (p + 1)

def reSearch (items : List RItem) (s : List Char) : Option (Nat × Nat × Option Nat) :=
  reSearchFrom items s 0

/-- re.findall for patterns without capture groups: leftmost
non-overlapping matches (these patterns never match the empty string). -/
def reFindallAux (items : List RItem) : Nat → List Char → List (List Char)
  | 0, _ => []
  | fuel + 1, s =>
      match reMatchAt items s with
      | some (n + 1, _) => s.take (n + 1) :: reFindallAux items fuel (s.drop (n + 1))
      | _ =>
          match s with
          | [] => []
          | _ :: t => reFindallAux items fuel t

def reFindall (items : List RItem) (s : List Char) : List (List Char) :=
  reFindallAux items (s.length + 1) s

/-- re.sub with a constant replacement. -/
def reSubAux (items : List RItem) (repl : List Char) : Nat → List Char → List Char
  | 0, s => s
  | fuel + 1, s =>
      match reMatchAt items s with
      | some (n + 1, _) => repl ++ reSubAux items repl fuel (s.drop (n + 1))
      | _ =>
          match s with
          | [] => []
          | c :: t => c :: reSubAux items repl fuel t

def reSub (items : List RItem) (repl : List Char) (s : List Char) : List Char :=
  reSubAux items repl (s.length + 1) s

/-- Next plus whitespace plus Session(s): -/
def patNextSessions : List RItem :=
  [RItem.lit 'n', RItem.lit 'e', RItem.lit 'x', RItem.lit 't',
   RItem.cls pyIsSpace true,
   RItem.lit 's', RItem.lit 'e', RItem.lit 's', RItem.lit 's',
   RItem.lit 'i', RItem.lit 'o', RItem.lit 'n',
   RItem.alts ["s".toList, []], RItem.lit ':']

/-- Last plus whitespace plus Session: -/
def patLastSession : List RItem :=
  [RItem.lit 'l', RItem.lit 'a', RItem.lit 's', RItem.lit 't',
   RItem.cls pyIsSpace true,
   RItem.lit 's', RItem.lit 'e', RItem.lit 's', RItem.lit 's',
   RItem.lit 'i', RItem.lit 'o', RItem.lit 'n', RItem.lit ':']

/-- An opening heading tag: angle bracket, h, digit, non-gt run, gt. -/
def patHeading : List RItem :=
  [RItem.lit '<', RItem.lit 'h', RItem.one Char.isDigit,
   RItem.cls (fun c => c ≠ '>') false, RItem.lit '>']

/-- A br tag with optional whitespace and slash. -/
def patBr : List RItem :=
  [RItem.lit '<', RItem.lit 'b', RItem.lit 'r',
   RItem.cls pyIsSpace false, RItem.alts ["/".toList, []], RItem.lit '>']

/-- Any tag: angle bracket, one-or-more non-gt, gt. -/
def patTag : List RItem :=
  [RItem.lit '<', RItem.cls (fun c => c ≠ '>') true, RItem.lit '>']

/-- The literal phrase Next Power Tower. -/
def patNextPowerTower : List RItem :=
  "next power tower".toList.map RItem.lit

/-- The session descriptor grammar used by the findall calls. -/
def patSession : List RItem :=
  [RItem.cls Char.isDigit true, RItem.alts ["am".toList, "pm".toList, []],
   RItem.lit '-',
   RItem.cls Char.isDigit true, RItem.alts ["am".toList, "pm".toList, []],
   RItem.lit ',',
   RItem.cls pyIsSpace false, RItem.cls isWordChar true,
   RItem.cls pyIsSpace false, RItem.cls Char.isDigit true,
   RItem.alts ["st".toList, "nd".toList, "rd".toList, "th".toList, []],
   RItem.cls pyIsSpace false, RItem.cls isWordChar true]

/-- The fallback single-line pattern, with the mark at the capture. -/
def patFallback : List RItem :=
  [RItem.lit 'n', RItem.lit 'e', RItem.lit 'x', RItem.lit 't',
   RItem.gstar [RItem.cls pyIsSpace true, RItem.cls isWordChar true],
   RItem.cls pyIsSpace true,
   RItem.lit 's', RItem.lit 'e', RItem.lit 's', RItem.lit 's',
   RItem.lit 'i', RItem.lit 'o', RItem.lit 'n',
   RItem.alts ["s".toList, []], RItem.lit ':',
   RItem.cls pyIsSpace false, RItem.mark,
   RItem.cls (fun c => c ≠ '<' ∧ c ≠ '\n') true]

/-- re.split on newline or the exact (case-sensitive) words Next and
Power Tower, as used on the isolated text block. -/
def splitSepAux : Nat → List Char → List Char → List (List Char)
  | 0, s, cur => [cur.reverse ++ s]
  | _ + 1, [], cur => [cur.reverse]
  | fuel + 1, c :: t, cur =>
      if c = '\n' then cur.reverse :: splitSepAux fuel t []
      else if (c :: t).take 4 = "Next".toList then
        cur.reverse :: splitSepAux fuel ((c :: t).drop 4) []
      else if (c :: t).take 11 = "Power Tower".toList then
        cur.reverse :: splitSepAux fuel ((c :: t).drop 11) []
      else splitSepAux fuel t (c :: cur)

def splitSep (s : List Char) : List (List Char) :=
  splitSepAux (s.length + 1) s []

inductive SessionType where
  | next
  | last
deriving DecidableEq, Repr

/-- list(set(sessions)) at line 129 of octopus_scraper.py. -/
def pyListSet (l : List String) : List String := l.dedup

/-- Apply the per-fragment findall of the descriptor grammar. -/
def findallInParts (parts : List (List Char)) : List String :=
  parts.foldl
    (fun acc part =>
      let p := pyStripList part
      if p.isEmpty then acc
      else acc ++ (reFindall patSession p).map (fun l => String.mk l))
    []

/-- OctopusScraper.extract_sessions before the final deduplication. -/
def extractRaw (html : String) : Option SessionType × List String :=
  let cs := html.toList
  match reSearch patNextSessions cs with
  | some (p, n, _) =>
      let startPos := p + n
      let tailCs := cs.drop startPos
      let endPos :=
        match reSearch patHeading tailCs with
        | some (hp, _, _) => hp
        | none => cs.length - startPos
      let block := reSub patBr ['\n'] (tailCs.take endPos)
      let textBlock := pyStripList (reSub patTag [] block)
      (some SessionType.next, findallInParts (splitSep textBlock))
  | none =>
      match reSearch patLastSession cs with
      | some (p, n, _) =>
          let startPos := p + n
          let tailCs := cs.drop startPos
          let endPos :=
            match reSearch patHeading tailCs, reSearch patNextPowerTower tailCs with
            | some (h1, _, _), some (h2, _, _) => min h1 h2
            | some (h1, _, _), none => h1
            | none, some (h2, _, _) => h2
            | none, none => cs.length - startPos
          let block := reSub patBr ['\n'] (tailCs.take endPos)
          let textBlock := pyStripList (reSub patTag [] block)
          (some SessionType.last,
           (reFindall patSession textBlock).map (fun l => String.mk l))
      | none =>
          match reSearch patFallback cs with
          | some (p, n, m) =>
              let mk := m.getD p
              let raw := (cs.drop mk).take (p + n - mk)
              let cleanPart := reSub patTag [] (pyStripList raw)
              (some SessionType.next,
               (reFindall patSession cleanPart).map (fun l => String.mk l))
          | none => (none, [])

/-- OctopusScraper.extract_sessions (lines 40-132). -/
def extractSessions (html : String) : Option SessionType × List String :=
  let r := extractRaw html
  (r.1, pyListSet r.2)

/-! ## The specification's 12-to-24-hour conversion table -/

/-- The conversion table exactly as the specification words it: an absent
suffix is inferred as pm for a bare 12 and am otherwise; pm with hour not
12 adds 12; am with hour 12 becomes 0.  Compared against to24Hour, the
definition translated from the source. -/
def spec24Hour (n : Nat) (suffix : Option AmPm) : Nat :=
  let inferred :=
    match suffix with
    | some s => s
    | none => if n = 12 then AmPm.pm else AmPm.am
  match inferred with
  | AmPm.pm => if n ≠ 12 then n + 12 else n
  | AmPm.am => if n = 12 then 0 else n

/-! ## Shape lemmas for the time resolver -/

theorem strptimeY_shape (clean : String) (y : Nat) (d : PyDateTime)
    (hd : strptimeY clean y = some d) :
    d.year = y ∧ d.hour = 0 ∧ d.minute = 0 ∧ fieldsDM clean = some (d.day, d.month) := by
  unfold strptimeY at hd
  split at hd
  · cases hfm : fieldsDM clean with
    | none => rw [hfm] at hd; cases hd
    | some p =>
        obtain ⟨dv, mv⟩ := p
        rw [hfm] at hd
        simp only at hd
        split at hd
        · cases hd
          exact ⟨rfl, rfl, rfl, rfl⟩
        · cases hd
  · cases hd

theorem combineAndRoll_shape (now : PyDateTime) (clean : String) (h : Nat)
    (d r : PyDateTime) (hr : combineAndRoll now clean h d = Except.ok (some r)) :
    h ≤ 23 ∧ (r = setHour d h ∨
      ∃ d2, strptimeY clean (now.year + 1) = some d2 ∧ r = setHour d2 h) := by
  unfold combineAndRoll at hr
  split at hr
  · rename_i hle
    refine ⟨hle, ?_⟩
    split at hr
    · split at hr
      · rename_i d2 hd2
        cases hr
        exact Or.inr ⟨d2, hd2, rfl⟩
      · cases hr
        exact Or.inl rfl
    · cases hr
      exact Or.inl rfl
  · cases hr

theorem resolveDate_shape (now : PyDateTime) (dp : String) (h : Nat) (r : PyDateTime)
    (hr : resolveDate now dp h = Except.ok (some r)) :
    h ≤ 23 ∧ r.hour = h ∧ r.minute = 0 ∧
    fieldsDM (stripOrdinals dp) = some (r.day, r.month) ∧
    (r.year = now.year ∨ r.year = now.year + 1) := by
  unfold resolveDate at hr
  split at hr
  · rename_i d hd
    obtain ⟨hle, hcase⟩ := combineAndRoll_shape now _ h d r hr
    obtain ⟨hy1, _, _, hf1⟩ := strptimeY_shape _ _ _ hd
    rcases hcase with hEq | ⟨d2, hd2, hEq⟩
    · subst hEq
      exact ⟨hle, rfl, rfl, by simpa [setHour] using hf1, Or.inl (by simpa [setHour] using hy1)⟩
    · obtain ⟨hy2, _, _, hf2⟩ := strptimeY_shape _ _ _ hd2
      subst hEq
      exact ⟨hle, rfl, rfl, by simpa [setHour] using hf2, Or.inr (by simpa [setHour] using hy2)⟩
  · rename_i hd1
    split at hr
    · rename_i d hd
      obtain ⟨hle, hcase⟩ := combineAndRoll_shape now _ h d r hr
      obtain ⟨hy1, _, _, hf1⟩ := strptimeY_shape _ _ _ hd
      rcases hcase with hEq | ⟨d2, hd2, hEq⟩
      · subst hEq
        exact ⟨hle, rfl, rfl, by simpa [setHour] using hf1,
          Or.inr (by simpa [setHour] using hy1)⟩
      · obtain ⟨hy2, _, _, hf2⟩ := strptimeY_shape _ _ _ hd2
        subst hEq
        exact ⟨hle, rfl, rfl, by simpa [setHour] using hf2,
          Or.inr (by simpa [setHour] using hy2)⟩
    · cases hr

theorem parseDatetime_shape (now : PyDateTime) (t dp : String) (r : PyDateTime)
    (hr : parseDatetime now t dp = Except.ok (some r)) :
    ∃ h, parseTimeToken t = some h ∧ h ≤ 23 ∧ r.hour = h ∧ r.minute = 0 ∧
      fieldsDM (stripOrdinals dp) = some (r.day, r.month) ∧
      (r.year = now.year ∨ r.year = now.year + 1) := by
  unfold parseDatetime at hr
  split at hr
  · cases hr
  · rename_i h htok
    obtain ⟨hle, hh, hm, hf, hy⟩ := resolveDate_shape now dp h r hr
    exact ⟨h, htok, hle, hh, hm, hf, hy⟩

theorem ltB_same_date (a b : PyDateTime) (hy : a.year = b.year) (hm : a.month = b.month)
    (hd : a.day = b.day) (hh : a.hour < b.hour) : a.ltB b = true := by
  have hne : a.hour ≠ b.hour := Nat.ne_of_lt hh
  simp [PyDateTime.ltB, hy, hm, hd, hne, hh]

/-! ## Claims about the time resolver -/

/-- Claim C1: the claim states that SessionParser.parse never raises for
malformed input and always returns a Session or None.  The code violates
this: a time range without a dash reaches time_part.split of dash index 1
and raises IndexError, and a time token whose 24-hour value exceeds 23
reaches date_obj.replace(hour=...) and raises ValueError. -/
theorem claim_C1 :
    parse ⟨2025, 1, 1, 0, 0⟩ "12pm, Saturday 4th October" =
      Except.error PyErr.indexError ∧
    parse ⟨2025, 1, 1, 0, 0⟩ "25-26pm, Saturday 4th October" =
      Except.error PyErr.valueError := ⟨rfl, rfl⟩

theorem parseParts_shape (now : PyDateTime) (str tp dp : String) (sess : Session)
    (hp : parseParts now str tp dp = Except.ok (some sess)) :
    parseDatetime now (pyStrip ((pySplitChar '-' tp).headD "")) dp =
      Except.ok (some sess.startTime) ∧
    ∃ t, (pySplitChar '-' tp).drop 1 = t :: ((pySplitChar '-' tp).drop 2) ∧
      parseDatetime now (pyStrip t) dp = Except.ok (some sess.endTime) := by
  unfold parseParts at hp
  split at hp
  · cases hp
  · rename_i st hst
    split at hp
    · cases hp
    · rename_i en hen
      split at hp
      · rename_i s e
        cases hp
        unfold parseStartTime at hst
        unfold parseEndTime at hen
        refine ⟨hst, ?_⟩
        split at hen
        · cases hen
        · rename_i t rest hsplit
          refine ⟨t, ?_, hen⟩
          have h2 : (pySplitChar '-' tp).drop 2 = rest := by
            have h3 := congrArg (List.drop 1) hsplit
            simpa [List.drop_drop] using h3
          rw [hsplit, h2]
      all_goals simp at hp

/-- Claim C2 (amended): for every successfully resolved descriptor the
two instants share the calendar day and month and carry zero minutes;
and whenever they additionally resolve to the same year with the end
hour strictly above the start hour, end is strictly after start.  The
unamended universal end-after-start fails on the code (see the
counterexample), as does same-calendar-date: the two instants can differ
in year when now lies between them. -/
theorem claim_C2 (now : PyDateTime) (str : String) (sess : Session)
    (hp : parse now str = Except.ok (some sess)) :
    sess.startTime.day = sess.endTime.day ∧
    sess.startTime.month = sess.endTime.month ∧
    sess.startTime.minute = 0 ∧ sess.endTime.minute = 0 ∧
    (sess.startTime.year = sess.endTime.year →
      sess.startTime.hour < sess.endTime.hour →
      sess.startTime.ltB sess.endTime = true) := by
  unfold parse at hp
  split at hp
  · cases hp
  · obtain ⟨hst, t, _, hen⟩ := parseParts_shape now str _ _ sess hp
    obtain ⟨h1, _, _, hh1, hm1, hf1, _⟩ := parseDatetime_shape _ _ _ _ hst
    obtain ⟨h2, _, _, hh2, hm2, hf2, _⟩ := parseDatetime_shape _ _ _ _ hen
    rw [hf1] at hf2
    have hday : sess.startTime.day = sess.endTime.day := by
      have := congrArg (fun o => (Option.getD o (0, 0)).1) hf2
      simpa using this
    have hmon : sess.startTime.month = sess.endTime.month := by
      have := congrArg (fun o => (Option.getD o (0, 0)).2) hf2
      simpa using this
    exact ⟨hday, hmon, hm1, hm2, fun hy hh => ltB_same_date _ _ hy hmon hday hh⟩

/-- Claim C2, failure of the original statement: the descriptor with
reversed hours parses successfully but its end instant is not after its
start instant. -/
theorem claim_C2_counterexample :
    parse ⟨2025, 1, 1, 0, 0⟩ "2pm-1pm, Saturday 4th October" =
      Except.ok (some ⟨"2pm-1pm, Saturday 4th October",
        ⟨2025, 10, 4, 14, 0⟩, ⟨2025, 10, 4, 13, 0⟩⟩) ∧
    PyDateTime.ltB ⟨2025, 10, 4, 14, 0⟩ ⟨2025, 10, 4, 13, 0⟩ = false := ⟨rfl, rfl⟩

/-- Claim C2, witness: the nominal descriptor satisfies the amended
statement with all hypotheses discharged. -/
theorem claim_C2_witness :
    PyDateTime.ltB ⟨2025, 10, 4, 12, 0⟩ ⟨2025, 10, 4, 14, 0⟩ = true ∧
    (⟨2025, 10, 4, 12, 0⟩ : PyDateTime).minute = 0 := by
  have h := claim_C2 ⟨2025, 1, 1, 0, 0⟩ "12-2pm, Saturday 4th October"
    ⟨"12-2pm, Saturday 4th October", ⟨2025, 10, 4, 12, 0⟩, ⟨2025, 10, 4, 14, 0⟩⟩ rfl
  exact ⟨h.2.2.2.2 rfl (by decide), h.2.2.1⟩

/-! ## Claims about notification windowing -/

/-- Claim C3 (amended): with notifications enabled and upcoming_hours 1,
should_notify_upcoming is true for a session starting 58 minutes from
now, true for one starting 61 minutes from now (the target instant is
then one minute away, inside the 5-minute band), and false for one
starting 70 minutes from now.  The original claim asserted false at 61
minutes; the code returns true there (see the counterexample). -/
theorem claim_C3 (now st58 st61 st70 : PyDateTime)
    (h58 : st58.toMin = now.toMin + 58)
    (h61 : st61.toMin = now.toMin + 61)
    (h70 : st70.toMin = now.toMin + 70) :
    shouldNotifyUpcoming true 1 now st58 = true ∧
    shouldNotifyUpcoming true 1 now st61 = true ∧
    shouldNotifyUpcoming true 1 now st70 = false := by
  have e58 : now.toMin - (st58.toMin - 60 * ((1 : Nat) : Int)) = 2 := by
    rw [h58]; ring
  have e61 : now.toMin - (st61.toMin - 60 * ((1 : Nat) : Int)) = -1 := by
    rw [h61]; push_cast; ring
  have e70 : now.toMin - (st70.toMin - 60 * ((1 : Nat) : Int)) = -10 := by
    rw [h70]; push_cast; ring
  refine ⟨?_, ?_, ?_⟩ <;>
    simp only [shouldNotifyUpcoming, Bool.not_true, Bool.false_eq_true, if_false, e58, e61, e70] <;>
    decide

/-- Claim C3, failure of the original statement: a session starting 61
minutes from now does fire the upcoming notification. -/
theorem claim_C3_counterexample :
    shouldNotifyUpcoming true 1 ⟨2025, 10, 4, 12, 0⟩ ⟨2025, 10, 4, 13, 1⟩ = true := by
  decide

/-- Claim C3, witness at concrete instants 58, 61 and 70 minutes ahead
of 2025-10-04T12:00. -/
theorem claim_C3_witness :
    shouldNotifyUpcoming true 1 ⟨2025, 10, 4, 12, 0⟩ ⟨2025, 10, 4, 12, 58⟩ = true ∧
    shouldNotifyUpcoming true 1 ⟨2025, 10, 4, 12, 0⟩ ⟨2025, 10, 4, 13, 10⟩ = false :=
  ⟨(claim_C3 ⟨2025, 10, 4, 12, 0⟩ ⟨2025, 10, 4, 12, 58⟩ ⟨2025, 10, 4, 13, 1⟩
      ⟨2025, 10, 4, 13, 10⟩ (by decide) (by decide) (by decide)).1,
   (claim_C3 ⟨2025, 10, 4, 12, 0⟩ ⟨2025, 10, 4, 12, 58⟩ ⟨2025, 10, 4, 13, 1⟩
      ⟨2025, 10, 4, 13, 10⟩ (by decide) (by decide) (by decide)).2.2⟩

/-! ## Claims about the calendar update -/

def sampleSession : Session :=
  ⟨"12-2pm, Saturday 4th October", ⟨2025, 10, 4, 12, 0⟩, ⟨2025, 10, 4, 14, 0⟩⟩

def staleDoc : CalDoc :=
  buildCal ⟨2025, 10, 1, 0, 0⟩ "GMT" true [60, 15, 0] [sampleSession]

/-- Claim C4: the claim states that an empty filtered session set still
produces a valid, empty calendar document overwriting the prior file.
The code violates this: ICalGenerator.generate returns False immediately
for an empty session list without writing, so update_ical leaves the
previous (non-empty) file contents in place. -/
theorem claim_C4 :
    updateIcal true 7 ⟨2026, 1, 1, 0, 0⟩ "GMT" true [60, 15, 0]
      [sampleSession] (some staleDoc) = some staleDoc ∧
    (generate ⟨2026, 1, 1, 0, 0⟩ "GMT" true [60, 15, 0] [] (some staleDoc)).1 = false ∧
    staleDoc.events ≠ [] := by
  refine ⟨rfl, rfl, ?_⟩
  decide

/-! ## Claims about year resolution -/

/-- Claim C5 (amended): for a date phrase that parses with the current
calendar year, if the naive instant (that date with the parsed hour) is
strictly before now, the resolved year is advanced by exactly one
provided the phrase also parses with the next year; when the next-year
parse fails (for example 29 February), the past current-year instant is
returned unchanged.  If the naive instant is not in the past, the
current year is used.  The nominal example: with current time
2025-01-01T00:00 the descriptor of 12-2pm Saturday 4th October resolves
to start 2025-10-04T12:00 and end 2025-10-04T14:00. -/
theorem claim_C5 :
    (∀ (now : PyDateTime) (tok dp : String) (h : Nat) (d1 r : PyDateTime),
      parseTimeToken tok = some h →
      strptimeY (stripOrdinals dp) now.year = some d1 →
      parseDatetime now tok dp = Except.ok (some r) →
      (((setHour d1 h).ltB now = true →
        (∀ d2, strptimeY (stripOrdinals dp) (now.year + 1) = some d2 →
          r = setHour d2 h ∧ r.year = now.year + 1) ∧
        (strptimeY (stripOrdinals dp) (now.year + 1) = none → r = setHour d1 h)) ∧
       ((setHour d1 h).ltB now = false → r = setHour d1 h ∧ r.year = now.year))) ∧
    parse ⟨2025, 1, 1, 0, 0⟩ "12-2pm, Saturday 4th October" =
      Except.ok (some ⟨"12-2pm, Saturday 4th October",
        ⟨2025, 10, 4, 12, 0⟩, ⟨2025, 10, 4, 14, 0⟩⟩) := by
  constructor
  · intro now tok dp h d1 r htok hd1 hr
    simp only [parseDatetime, htok] at hr
    simp only [resolveDate, hd1] at hr
    simp only [combineAndRoll] at hr
    split at hr
    · rename_i hle
      split at hr
      · rename_i hpast
        constructor
        · intro _
          constructor
          · intro d2 hd2
            rw [hd2] at hr
            cases hr
            obtain ⟨hy2, _, _, _⟩ := strptimeY_shape _ _ _ hd2
            exact ⟨rfl, by simpa [setHour] using hy2⟩
          · intro hnone
            rw [hnone] at hr
            cases hr
            rfl
        · intro hnot
          rw [hpast] at hnot
          cases hnot
      · rename_i hnot
        constructor
        · intro hpast
          rw [hpast] at hnot
          simp at hnot
        · intro _
          cases hr
          obtain ⟨hy1, _, _, _⟩ := strptimeY_shape _ _ _ hd1
          exact ⟨rfl, by simpa [setHour] using hy1⟩
    · cases hr
  · rfl

/-- Claim C5, failure of the original statement: with current time
2024-03-01T00:00 the naive instant 2024-02-29T12:00 is strictly in the
past, yet the resolved year is not advanced, because 29 February does
not exist in 2025. -/
theorem claim_C5_counterexample :
    parse ⟨2024, 3, 1, 0, 0⟩ "12-2pm, Saturday 29th February" =
      Except.ok (some ⟨"12-2pm, Saturday 29th February",
        ⟨2024, 2, 29, 12, 0⟩, ⟨2024, 2, 29, 14, 0⟩⟩) ∧
    PyDateTime.ltB ⟨2024, 2, 29, 12, 0⟩ ⟨2024, 3, 1, 0, 0⟩ = true ∧
    (⟨2024, 2, 29, 12, 0⟩ : PyDateTime).year = (⟨2024, 3, 1, 0, 0⟩ : PyDateTime).year :=
  ⟨rfl, rfl, rfl⟩

/-- Claim C5, witness: the nominal example instantiates the amended
statement, with the not-in-the-past branch discharged concretely. -/
theorem claim_C5_witness :
    parseDatetime ⟨2025, 1, 1, 0, 0⟩ "12" "Saturday 4th October" =
      Except.ok (some ⟨2025, 10, 4, 12, 0⟩) ∧
    (⟨2025, 10, 4, 12, 0⟩ : PyDateTime) = setHour ⟨2025, 10, 4, 0, 0⟩ 12 ∧
    (⟨2025, 10, 4, 12, 0⟩ : PyDateTime).year = 2025 :=
  ⟨rfl,
   ((claim_C5.1 ⟨2025, 1, 1, 0, 0⟩ "12" "Saturday 4th October" 12
      ⟨2025, 10, 4, 0, 0⟩ ⟨2025, 10, 4, 12, 0⟩ rfl rfl rfl).2 (by decide)).1,
   ((claim_C5.1 ⟨2025, 1, 1, 0, 0⟩ "12" "Saturday 4th October" 12
      ⟨2025, 10, 4, 0, 0⟩ ⟨2025, 10, 4, 12, 0⟩ rfl rfl rfl).2 (by decide)).2⟩

/-! ## Claim about the 12-to-24-hour conversion -/

/-- Claim C6: the conversion applied to every time token agrees with the
specification's table for every digit value and suffix (absent suffix
inferred as pm for a bare 12 and am otherwise; pm with hour not 12 adds
12; am with hour 12 becomes 0), minutes are always 0, and the nominal
descriptor of 11-1pm Sunday 3rd November yields start hour 11 and end
hour 13. -/
theorem claim_C6 :
    (∀ (n : Nat) (suf : Option AmPm), to24Hour n suf = spec24Hour n suf) ∧
    parse ⟨2025, 1, 1, 0, 0⟩ "11-1pm, Sunday 3rd November" =
      Except.ok (some ⟨"11-1pm, Sunday 3rd November",
        ⟨2025, 11, 3, 11, 0⟩, ⟨2025, 11, 3, 13, 0⟩⟩) := by
  constructor
  · intro n suf
    cases suf with
    | none =>
        by_cases h12 : n = 12 <;> simp [to24Hour, spec24Hour, h12]
    | some a =>
        cases a <;> by_cases h12 : n = 12 <;> simp [to24Hour, spec24Hour, h12]
  · rfl

/-! ## Claims about the session tracker -/

theorem pySetAdd_mem_preserve (l : List String) (d x : String) (hx : x ∈ l) :
    x ∈ pySetAdd l d := by
  unfold pySetAdd
  split
  · exact hx
  · exact List.mem_append_left _ hx

theorem pySetAdd_self_mem (l : List String) (d : String) : d ∈ pySetAdd l d := by
  unfold pySetAdd
  split
  · assumption
  · exact List.mem_append_right _ (List.mem_singleton.mpr rfl)

theorem applyOp_mono (sf : TrackerState × Option TrackerState) (op : TrackOp) (x : String) :
    (x ∈ sf.1.seenSessions → x ∈ ((applyOp sf op).1).1.seenSessions) ∧
    (x ∈ sf.1.notifiedUpcoming → x ∈ ((applyOp sf op).1).1.notifiedUpcoming) ∧
    (x ∈ sf.1.notifiedStart → x ∈ ((applyOp sf op).1).1.notifiedStart) ∧
    (x ∈ sf.1.notifiedEnd → x ∈ ((applyOp sf op).1).1.notifiedEnd) := by
  cases op <;>
    refine ⟨fun h => ?_, fun h => ?_, fun h => ?_, fun h => ?_⟩ <;>
    simp only [applyOp] <;>
    first
      | exact h
      | exact pySetAdd_mem_preserve _ _ _ h

theorem runOps_mono (ops : List TrackOp) (sf : TrackerState × Option TrackerState)
    (x : String) :
    (x ∈ sf.1.seenSessions → x ∈ (runOps sf ops).1.seenSessions) ∧
    (x ∈ sf.1.notifiedUpcoming → x ∈ (runOps sf ops).1.notifiedUpcoming) ∧
    (x ∈ sf.1.notifiedStart → x ∈ (runOps sf ops).1.notifiedStart) ∧
    (x ∈ sf.1.notifiedEnd → x ∈ (runOps sf ops).1.notifiedEnd) := by
  induction ops generalizing sf with
  | nil => exact ⟨id, id, id, id⟩
  | cons op t ih =>
      have h1 := applyOp_mono sf op x
      have h2 := ih ((applyOp sf op).1)
      refine ⟨fun h => ?_, fun h => ?_, fun h => ?_, fun h => ?_⟩
      · exact h2.1 (h1.1 h)
      · exact h2.2.1 (h1.2.1 h)
      · exact h2.2.2.1 (h1.2.2.1 h)
      · exact h2.2.2.2 (h1.2.2.2 h)

/-- Claim C7: each should-notify query on a fresh tracker is true, is
false immediately after the corresponding mark call, and once false it
stays false across any further sequence of tracker operations, because
no operation removes a descriptor from a flag set. -/
theorem claim_C7 (st : TrackerState) (f : Option TrackerState) (d : String)
    (ops : List TrackOp) :
    (shouldNotifyUpcomingQ emptyTracker d = true ∧
     shouldNotifyUpcomingQ ((applyOp (st, f) (TrackOp.markUp d)).1).1 d = false ∧
     (shouldNotifyUpcomingQ st d = false →
       shouldNotifyUpcomingQ (runOps (st, f) ops).1 d = false)) ∧
    (shouldNotifyStartQ emptyTracker d = true ∧
     shouldNotifyStartQ ((applyOp (st, f) (TrackOp.markStart d)).1).1 d = false ∧
     (shouldNotifyStartQ st d = false →
       shouldNotifyStartQ (runOps (st, f) ops).1 d = false)) ∧
    (shouldNotifyEndQ emptyTracker d = true ∧
     shouldNotifyEndQ ((applyOp (st, f) (TrackOp.markEnd d)).1).1 d = false ∧
     (shouldNotifyEndQ st d = false →
       shouldNotifyEndQ (runOps (st, f) ops).1 d = false)) := by
  refine ⟨⟨by simp [shouldNotifyUpcomingQ, emptyTracker], ?_, ?_⟩,
    ⟨by simp [shouldNotifyStartQ, emptyTracker], ?_, ?_⟩,
    ⟨by simp [shouldNotifyEndQ, emptyTracker], ?_, ?_⟩⟩
  · simp [applyOp, shouldNotifyUpcomingQ, pySetAdd_self_mem]
  · intro hfalse
    simp only [shouldNotifyUpcomingQ, decide_eq_false_iff_not, not_not] at hfalse ⊢
    exact (runOps_mono ops (st, f) d).2.1 hfalse
  · simp [applyOp, shouldNotifyStartQ, pySetAdd_self_mem]
  · intro hfalse
    simp only [shouldNotifyStartQ, decide_eq_false_iff_not, not_not] at hfalse ⊢
    exact (runOps_mono ops (st, f) d).2.2.1 hfalse
  · simp [applyOp, shouldNotifyEndQ, pySetAdd_self_mem]
  · intro hfalse
    simp only [shouldNotifyEndQ, decide_eq_false_iff_not, not_not] at hfalse ⊢
    exact (runOps_mono ops (st, f) d).2.2.2 hfalse

/-- Claim C7, witness: a descriptor already marked for the upcoming
milestone stays unnotifiable across further operations. -/
theorem claim_C7_witness :
    shouldNotifyUpcomingQ
      (runOps (⟨[], ["a"], [], []⟩, none)
        [TrackOp.isNew "b", TrackOp.markSeen "b", TrackOp.shouldUp "a"]).1 "a" = false :=
  ((claim_C7 ⟨[], ["a"], [], []⟩ none "a"
    [TrackOp.isNew "b", TrackOp.markSeen "b", TrackOp.shouldUp "a"]).1).2.2 (by decide)

/-- Claim C8: after mark_seen the full-state save followed by a fresh
load (a simulated process restart over the same state file) reports the
descriptor as not new, and round-trips the entire tracker state
unchanged. -/
theorem claim_C8 (st : TrackerState) (f : Option TrackerState) (d : String) :
    isNewSession (loadState ((applyOp (st, f) (TrackOp.markSeen d)).1.2)) d = false ∧
    loadState ((applyOp (st, f) (TrackOp.markSeen d)).1.2) =
      ((applyOp (st, f) (TrackOp.markSeen d)).1).1 := by
  constructor
  · simp [applyOp, loadState, saveState, isNewSession, pySetAdd_self_mem]
  · rfl

/-- Claim C10: the four query methods return their answer and leave both
the in-memory tracker state and the persisted file untouched; only the
mark operations mutate. -/
theorem claim_C10 (st : TrackerState) (f : Option TrackerState) (d : String) :
    applyOp (st, f) (TrackOp.isNew d) = ((st, f), some (isNewSession st d)) ∧
    applyOp (st, f) (TrackOp.shouldUp d) = ((st, f), some (shouldNotifyUpcomingQ st d)) ∧
    applyOp (st, f) (TrackOp.shouldStart d) = ((st, f), some (shouldNotifyStartQ st d)) ∧
    applyOp (st, f) (TrackOp.shouldEnd d) = ((st, f), some (shouldNotifyEndQ st d)) :=
  ⟨rfl, rfl, rfl, rfl⟩

/-! ## Claim about extraction -/

def markupExample : String :=
  "Next Sessions: 12-2pm, Saturday 4th October<br>3-5pm, Sunday 5th October"

/-- Claim C9: extraction on the nominal markup yields the next
classification and exactly the two expected descriptors, and on every
input the returned descriptor list is duplicate-free. -/
theorem claim_C9 :
    (extractSessions markupExample).1 = some SessionType.next ∧
    (extractSessions markupExample).2.length = 2 ∧
    "12-2pm, Saturday 4th October" ∈ (extractSessions markupExample).2 ∧
    "3-5pm, Sunday 5th October" ∈ (extractSessions markupExample).2 ∧
    ∀ html : String, ((extractSessions html).2).Nodup := by
  have hres : extractSessions markupExample =
      (some SessionType.next,
       ["12-2pm, Saturday 4th October", "3-5pm, Sunday 5th October"]) := rfl
  refine ⟨by rw [hres], by rw [hres]; rfl, by rw [hres]; simp, by rw [hres]; simp, ?_⟩
  intro html
  have h2 : (extractSessions html).2 = pyListSet (extractRaw html).2 := rfl
  rw [h2]
  exact List.nodup_dedup _
